import Mathlib

/-!
Shallow embedding of the python-control MATLAB compatibility module
(src/src/matlab.py) and proofs about its wrapper functions.

The module is glue code: every wrapper inspects the number and types of its
positional arguments and then delegates to a routine implemented in another
module (statesp, xferfcn, freqplot, timeresp, scipy).  The embedding keeps
the wrappers themselves exact, translated line by line from the source, and
represents the delegated routines symbolically: a call to a delegate is a
constructor of the result type Res, so a returned value records exactly
which delegates were invoked and with which arguments.  Exceptions are
modelled with an Except monad whose error type distinguishes the exception
classes raised by the module.
-/

namespace Matlab

/-- Python values as far as the dispatch code of matlab.py can distinguish
them: StateSpace instances, TransferFunction instances, strings, lists or
ndarrays, other objects that expose an iteration method, and all remaining
objects.  The Nat payload is an identity so that distinct objects of the
same class can be told apart.  Modelled from the spec: the statesp, xferfcn
and ctrlutil modules are not included; StateSpace and TransferFunction are
the system classes the wrappers test with isinstance, and they define no
iteration method, while lists, ndarrays and iterOther objects do. -/
inductive PyVal where
  | ssObj (d : Nat)
  | tfObj (d : Nat)
  | str (s : String)
  | arr (d : Nat)
  | iterOther (d : Nat)
  | other (d : Nat)
  deriving DecidableEq, Repr

/-- Exception classes raised by the module.  ValueError and TypeError are
Python builtins.  Modelled from the spec: the exception module is not
included; ControlArgument is the argument-validation exception class that
matlab.py imports from it, a class distinct from the builtins ValueError
and TypeError.  IndexError is raised by Python itself when a tuple is
indexed out of range. -/
inductive Exc where
  | valueError (msg : String)
  | typeError (msg : String)
  | controlArgument (msg : String)
  | indexError (msg : String)
  deriving DecidableEq, Repr

/-- Test whether an exception is one of the two builtin classes the spec
names, ValueError or TypeError. -/
def Exc.isVT : Exc → Bool
  | .valueError _ => true
  | .typeError _ => true
  | _ => false

/-- Test whether an exception is a ControlArgument. -/
def Exc.isCA : Exc → Bool
  | .controlArgument _ => true
  | _ => false

/-- Results of the wrappers, recorded symbolically: each constructor is one
delegated routine of the underlying library, applied to the arguments the
wrapper passed it.  mkStateSpace is the StateSpace constructor, and
mkTransferFunction the TransferFunction constructor; convertToStateSpace
and convertToTransferFunction are the private conversion routines from
statesp and xferfcn; deepcopy is the standard-library deep copy; valRes
wraps an argument object passed through unchanged; ssFromZpk is
StateSpace applied to the four matrices returned by the scipy routine
zpk2ss; dcgainOf sys is the expression sys.D - sys.C * sys.A.I * sys.B
computed from a state-space system. -/
inductive Res where
  | mkStateSpace (a b c d : PyVal)
  | mkTransferFunction (num den : PyVal)
  | convertToStateSpace (x : Res)
  | convertToTransferFunction (x : Res)
  | deepcopy (v : PyVal)
  | valRes (v : PyVal)
  | ssFromZpk (z p k : PyVal)
  | dcgainOf (sys : Res)
  deriving DecidableEq, Repr

/-- Python isinstance test against the StateSpace class. -/
def isSS : PyVal → Bool
  | .ssObj _ => true
  | _ => false

/-- Python isinstance test against the TransferFunction class. -/
def isTF : PyVal → Bool
  | .tfObj _ => true
  | _ => false

/-- Python isinstance test against str. -/
def isStr : PyVal → Bool
  | .str _ => true
  | _ => false

/-- Python isinstance test against (list, numpy.ndarray). -/
def isArr : PyVal → Bool
  | .arr _ => true
  | _ => false

/-- Python getattr(v, iteration method, False) as a Boolean: lists and
ndarrays iterate, as do the iterOther objects; in Python 2 a str does not
expose the attribute, and the system classes do not define it. -/
def hasIter : PyVal → Bool
  | .arr _ => true
  | .iterOther _ => true
  | _ => false

/-- Name of the class of a value, standing in for the Python rendering of
type(sys) that the source interpolates into error messages with percent-s. -/
def pyTypeName : PyVal → String
  | .ssObj _ => "<class statesp.StateSpace>"
  | .tfObj _ => "<class xferfcn.TransferFunction>"
  | .str _ => "<type str>"
  | .arr _ => "<type ndarray>"
  | .iterOther _ => "<type iterable>"
  | .other _ => "<type object>"

/-- Message of the arity ValueError shared by ss and ss2tf. -/
def needs14Msg (n : Nat) : String :=
  "Needs 1 or 4 arguments; received " ++ toString n ++ "."

/-- Message of the arity ValueError shared by tf and tf2ss. -/
def needs12Msg (n : Nat) : String :=
  "Needs 1 or 2 arguments; received " ++ toString n ++ "."

/-- Message of the arity ValueError of margin. -/
def marginMsg (n : Nat) : String :=
  "Margin needs 1 or 3 arguments; received " ++ toString n ++ "."

/-- Message of the arity ValueError of dcgain. -/
def dcgainMsg : String :=
  "Function ``dcgain`` needs either 1, 2, 3 or 4 arguments."

/-- Message of the TypeError of ss on a single argument of the wrong class. -/
def ssTypeMsg (v : PyVal) : String :=
  "ss(sys): sys must be a StateSpace or TransferFunction object.  It is "
    ++ pyTypeName v ++ "."

/-- Message of the TypeError of tf on a single argument of the wrong class. -/
def tfTypeMsg (v : PyVal) : String :=
  "tf(sys): sys must be a StateSpace or TransferFunction object.  It is "
    ++ pyTypeName v ++ "."

/-- Message of the TypeError of ss2tf on a single argument of the wrong
class. -/
def ss2tfTypeMsg (v : PyVal) : String :=
  "ss2tf(sys): sys must be a StateSpace object.  It is "
    ++ pyTypeName v ++ "."

/-- Message of the TypeError of tf2ss on a single argument of the wrong
class. -/
def tf2ssTypeMsg : String :=
  "tf2ss(sys): sys must be a TransferFunction object."

/-- Wrapper tf2ss, translated from matlab.py lines 512 to 522: with two
arguments num and den it returns convertToStateSpace applied to
TransferFunction(num, den); with one argument it requires a
TransferFunction and returns convertToStateSpace applied to it; any other
argument count raises a ValueError. -/
def tf2ss (args : List PyVal) : Except Exc Res :=
  match args with
  | [num, den] => .ok (.convertToStateSpace (.mkTransferFunction num den))
  | [sys] =>
      if isTF sys then .ok (.convertToStateSpace (.valRes sys))
      else .error (.typeError tf2ssTypeMsg)
  | rest => .error (.valueError (needs12Msg rest.length))

/-- Wrapper ss2tf, translated from matlab.py lines 453 to 465. -/
def ss2tf (args : List PyVal) : Except Exc Res :=
  match args with
  | [a, b, c, d] =>
      .ok (.convertToTransferFunction (.mkStateSpace a b c d))
  | [sys] =>
      if isSS sys then .ok (.convertToTransferFunction (.valRes sys))
      else .error (.typeError (ss2tfTypeMsg sys))
  | rest => .error (.valueError (needs14Msg rest.length))

/-- Wrapper ss, translated from matlab.py lines 342 to 354: four arguments
build StateSpace(A, B, C, D) directly; a single StateSpace is deep copied;
a single TransferFunction is passed to tf2ss; a single argument of any
other class raises a TypeError; any other argument count raises a
ValueError. -/
def ss (args : List PyVal) : Except Exc Res :=
  match args with
  | [a, b, c, d] => .ok (.mkStateSpace a b c d)
  | [sys] =>
      if isSS sys then .ok (.deepcopy sys)
      else if isTF sys then tf2ss [sys]
      else .error (.typeError (ssTypeMsg sys))
  | rest => .error (.valueError (needs14Msg rest.length))

/-- Wrapper tf, translated from matlab.py lines 401 to 413: two arguments
build TransferFunction(num, den) directly; a single StateSpace is passed
to ss2tf; a single TransferFunction is deep copied; a single argument of
any other class raises a TypeError; any other argument count raises a
ValueError. -/
def tf (args : List PyVal) : Except Exc Res :=
  match args with
  | [num, den] => .ok (.mkTransferFunction num den)
  | [sys] =>
      if isSS sys then ss2tf [sys]
      else if isTF sys then .ok (.deepcopy sys)
      else .error (.typeError (tfTypeMsg sys))
  | rest => .error (.valueError (needs12Msg rest.length))

/-- Argument passed by the margin wrapper to the delegate freqplot.margin:
either the system given by the one-argument form, or the tuple of
magnitude, phase and frequency data given by the three-argument form,
which the source passes to the delegate as one tuple object. -/
inductive MarginArg where
  | sysArg (s : PyVal)
  | magPhaseW (m p w : PyVal)
  deriving DecidableEq, Repr

/-- Wrapper margin, translated from matlab.py lines 842 to 851.  The
delegate freqplot.margin lives in a module that is not part of the file;
it is taken as a function argument returning a five element tuple, indexed
by Fin 5 exactly as the source indexes the tuple margins.  With one
argument the delegate is applied to the system; with three arguments it is
applied to the argument tuple; any other count raises a ValueError.  The
wrapper returns elements 0, 1, 3 and 4 of the tuple. -/
def margin {ρ : Type} (fpMargin : MarginArg → Fin 5 → ρ) (args : List PyVal) :
    Except Exc (ρ × ρ × ρ × ρ) :=
  match args with
  | [sys] =>
      let margins := fpMargin (.sysArg sys)
      .ok (margins 0, margins 1, margins 3, margins 4)
  | [m, p, w] =>
      let margins := fpMargin (.magPhaseW m p w)
      .ok (margins 0, margins 1, margins 3, margins 4)
  | rest => .error (.valueError (marginMsg rest.length))

/-- Wrapper dcgain at the dispatch level, translated from matlab.py lines
888 to 906.  The scipy routine zpk2ss is not part of the file and is taken
as a function argument returning the four matrices A, B, C, D.  Four
arguments are passed to ss; three are converted by zpk2ss and then passed
to ss; two are passed to tf2ss; one is passed to ss; any other count
raises a ValueError.  The final line, gain = sys.D - sys.C * sys.A.I *
sys.B, is recorded symbolically by the constructor dcgainOf; its matrix
content is verified separately by the matrix level model dcgainQ below. -/
def dcgain (zpk2ss : PyVal → PyVal → PyVal → PyVal × PyVal × PyVal × PyVal)
    (args : List PyVal) : Except Exc Res :=
  match args with
  | [a, b, c, d] => (ss [a, b, c, d]).map .dcgainOf
  | [z, p, k] =>
      let m := zpk2ss z p k
      (ss [m.1, m.2.1, m.2.2.1, m.2.2.2]).map .dcgainOf
  | [num, den] => (tf2ss [num, den]).map .dcgainOf
  | [sys] => (ss [sys]).map .dcgainOf
  | _ => .error (.valueError dcgainMsg)

/-- Result of the bode wrapper, recorded symbolically.  forwardAll is the
call freqplot.bode applied to all positional and keyword arguments
unchanged; plotCall is the call freqplot.bode applied to the system list
and frequency list collected by the argument loop, with the keyword
arguments passed through.  The keyword dictionary has the abstract type κ. -/
inductive BodeRes (κ : Type) where
  | forwardAll (args : List PyVal) (kw : κ)
  | plotCall (syslist : List PyVal) (omega : Option PyVal) (kw : κ)
  deriving DecidableEq, Repr

/-- Argument loop of the bode wrapper, translated from matlab.py lines 743
to 767.  The loop walks the argument tuple: a system is appended to
syslist, and a string directly after it to plotstyle; a list or ndarray
becomes the frequency list omega and breaks the loop; anything else raises
a ControlArgument.  Modelled from the spec: ctrlutil is not part of the
file; its issys test recognises the system objects, here the isinstance
tests isSS and isTF.  The function returns the collected syslist and
plotstyle, the omega found when the loop broke early, and the arguments
left unprocessed after the break. -/
def bodeLoop :
    List PyVal → List PyVal → List PyVal →
      Except Exc (List PyVal × List PyVal × Option PyVal × List PyVal)
  | [], syslist, plotstyle => .ok (syslist, plotstyle, none, [])
  | a :: rest1, syslist, plotstyle =>
      if isSS a || isTF a then
        match rest1 with
        | b :: rest2 =>
            if isStr b then
              bodeLoop rest2 (syslist ++ [a]) (plotstyle ++ [b])
            else
              bodeLoop (b :: rest2) (syslist ++ [a]) plotstyle
        | [] => bodeLoop [] (syslist ++ [a]) plotstyle
      else if isArr a then
        .ok (syslist, plotstyle, some a, rest1)
      else
        .error (.controlArgument "unrecognized argument type")

/-- Wrapper bode, translated from matlab.py lines 726 to 783.  An empty
argument tuple makes the subscript args[0] raise an IndexError.  When the
first argument iterates, every positional and keyword argument is
forwarded to freqplot.bode unchanged.  Otherwise the argument loop runs;
arguments left after an early break raise a ControlArgument, a plotstyle
list whose length differs from the system list raises a ControlArgument,
and otherwise freqplot.bode is called on the collected system list and
frequency list.  The warning printed for nonempty plotstyle lists has no
effect on the returned value and is not modelled. -/
def bode {κ : Type} (kw : κ) (args : List PyVal) : Except Exc (BodeRes κ) :=
  match args with
  | [] => .error (.indexError "tuple index out of range")
  | a :: _ =>
      if hasIter a then .ok (.forwardAll args kw)
      else
        match bodeLoop args [] [] with
        | .error e => .error e
        | .ok (syslist, plotstyle, omega, leftover) =>
            if leftover.length ≠ 0 then
              .error (.controlArgument "not all arguments processed")
            else if plotstyle.length ≠ 0 ∧ syslist.length ≠ plotstyle.length then
              .error (.controlArgument
                "number of systems and plotstyles should be equal")
            else
              .ok (.plotCall syslist omega kw)

/-- Call to one of the four deterministic conversion wrappers, with its
positional arguments. -/
inductive WCall where
  | ssC (args : List PyVal)
  | tfC (args : List PyVal)
  | ss2tfC (args : List PyVal)
  | tf2ssC (args : List PyVal)
  deriving DecidableEq, Repr

/-- Execute one wrapper call. -/
def runCall : WCall → Except Exc Res
  | .ssC a => ss a
  | .tfC a => tf a
  | .ss2tfC a => ss2tf a
  | .tf2ssC a => tf2ss a

/-- Execute a sequence of wrapper calls in order, collecting each result.
The wrappers read no mutable module state, so execution threads no state:
the module level names they read (the imported classes and routines) are
bound once at import time and never reassigned. -/
def runSeq (cs : List WCall) : List (Except Exc Res) :=
  cs.map runCall

/-- Wrapper step, translated from matlab.py lines 911 to 914.  The delegate
timeresp.StepResponse lives in a module that is not part of the file and is
taken as a function argument; its last parameter is the transpose keyword.
The wrapper unpacks the returned pair into T and yout and returns the pair
T, yout. -/
def step {Sys Time X Out : Type}
    (StepResponse : Sys → Option Time → X → Nat → Nat → Bool → Time × Out)
    (sys : Sys) (T : Option Time) (X0 : X) (inp outp : Nat) : Time × Out :=
  let r := StepResponse sys T X0 inp outp true
  (r.1, r.2)

/-- Wrapper impulse, translated from matlab.py lines 916 to 919, delegating
to timeresp.ImpulseResponse with transpose set to True. -/
def impulse {Sys Time X Out : Type}
    (ImpulseResponse : Sys → Option Time → X → Nat → Nat → Bool → Time × Out)
    (sys : Sys) (T : Option Time) (X0 : X) (inp outp : Nat) : Time × Out :=
  let r := ImpulseResponse sys T X0 inp outp true
  (r.1, r.2)

/-- Wrapper initial, translated from matlab.py lines 921 to 924, delegating
to timeresp.InitialResponse with transpose set to True. -/
def initial {Sys Time X Out : Type}
    (InitialResponse : Sys → Option Time → X → Nat → Nat → Bool → Time × Out)
    (sys : Sys) (T : Option Time) (X0 : X) (inp outp : Nat) : Time × Out :=
  let r := InitialResponse sys T X0 inp outp true
  (r.1, r.2)

/-- Wrapper lsim, translated from matlab.py lines 926 to 929, delegating to
timeresp.ForcedResponse with transpose set to True.  The wrapper receives
sys, U, T, X0 and passes sys, T, U, X0 to the delegate; it unpacks the
returned triple into T, yout, xout and returns the triple T, yout, xout. -/
def lsim {Sys Time U X Out XOut : Type}
    (ForcedResponse : Sys → Option Time → U → X → Bool → Time × Out × XOut)
    (sys : Sys) (u : U) (T : Option Time) (X0 : X) : Time × Out × XOut :=
  let r := ForcedResponse sys T u X0 true
  (r.1, r.2.1, r.2.2)

end Matlab

namespace ObjModel

/-- Class of an object on the heap. -/
inductive ObjKind where
  | ssK
  | tfK
  | otherK
  deriving DecidableEq, Repr

/-- Heap object: its class and its contents. -/
structure Obj where
  kind : ObjKind
  data : Nat
  deriving DecidableEq, Repr

/-- Default object returned for a dangling address. -/
def oDefault : Obj := ⟨.otherK, 0⟩

/-- Object store: a list of objects, an address being an index into the
list.  Allocation appends; mutation of the object at an address is
List.set. -/
abbrev Heap := List Obj

/-- Deep copy, the routine matlab.py imports from the copy module: it
allocates a fresh object with the same contents at a fresh address and
returns the new heap together with the new address. -/
def deepcopy (h : Heap) (a : Nat) : Heap × Nat :=
  (h ++ [h.getD a oDefault], h.length)

/-- Result of a conversion wrapper at the heap level: an address of a
returned object, a marker recording that the call delegated to a
conversion routine of another module (whose heap effect is outside the
file), or a marker recording that the wrapper raised a TypeError. -/
inductive HRes where
  | addr (a : Nat)
  | delegated (a : Nat)
  | typeErr
  deriving DecidableEq, Repr

/-- Heap level view of the one-argument form of the wrapper ss, matlab.py
lines 344 to 352: a StateSpace argument is deep copied, a TransferFunction
argument is delegated to tf2ss, anything else raises a TypeError. -/
def ssHeap (h : Heap) (a : Nat) : Heap × HRes :=
  match (h.getD a oDefault).kind with
  | .ssK => ((deepcopy h a).1, .addr (deepcopy h a).2)
  | .tfK => (h, .delegated a)
  | .otherK => (h, .typeErr)

/-- Heap level view of the one-argument form of the wrapper tf, matlab.py
lines 403 to 411: a StateSpace argument is delegated to ss2tf, a
TransferFunction argument is deep copied, anything else raises a
TypeError. -/
def tfHeap (h : Heap) (a : Nat) : Heap × HRes :=
  match (h.getD a oDefault).kind with
  | .ssK => (h, .delegated a)
  | .tfK => ((deepcopy h a).1, .addr (deepcopy h a).2)
  | .otherK => (h, .typeErr)

end ObjModel

namespace MatModel

/-- State-space system over the rationals: the four matrices A, B, C, D
with n states, m inputs and p outputs, the attributes the dcgain wrapper
reads from the object returned by the conversions. -/
structure SSQ (n m p : Nat) where
  A : Matrix (Fin n) (Fin n) ℚ
  B : Matrix (Fin n) (Fin m) ℚ
  C : Matrix (Fin p) (Fin n) ℚ
  D : Matrix (Fin p) (Fin m) ℚ

/-- Matrix inverse as the numpy attribute A.I computes it: defined exactly
when the determinant is nonzero, via the adjugate; numpy raises a
LinAlgError on a singular matrix, modelled as none. -/
def matInv {n : Nat} (A : Matrix (Fin n) (Fin n) ℚ) :
    Option (Matrix (Fin n) (Fin n) ℚ) :=
  if A.det = 0 then none else some (A.det⁻¹ • A.adjugate)

/-- Accepted argument forms of dcgain, matlab.py lines 888 to 900: four
state-space matrices, zero-pole-gain data, transfer-function data, or a
system object.  The data of the last three forms has abstract types, since
the conversions that interpret it live outside the file. -/
inductive DCArgs (n m p : Nat) (α β γ : Type) where
  | mats (A : Matrix (Fin n) (Fin n) ℚ) (B : Matrix (Fin n) (Fin m) ℚ)
      (C : Matrix (Fin p) (Fin n) ℚ) (D : Matrix (Fin p) (Fin m) ℚ)
  | zpk (z : α)
  | tfnd (t : β)
  | sysArg (s : γ)

/-- Conversion phase of dcgain, matlab.py lines 888 to 900: every accepted
argument form is turned into a state-space system sys.  The four-matrix
form builds StateSpace(A, B, C, D) directly through ss; the other three
forms go through the conversions zpk2ss with ss, tf2ss, and ss, which live
outside the file and are taken as function arguments. -/
def dcArgsToSS {n m p : Nat} {α β γ : Type}
    (zpkC : α → SSQ n m p) (tfC : β → SSQ n m p) (sysC : γ → SSQ n m p) :
    DCArgs n m p α β γ → SSQ n m p
  | .mats A B C D => ⟨A, B, C, D⟩
  | .zpk z => zpkC z
  | .tfnd t => tfC t
  | .sysArg s => sysC s

/-- Gain phase of dcgain, matlab.py line 905: gain = sys.D - sys.C *
sys.A.I * sys.B, undefined when A is singular because A.I raises. -/
def dcgainGain {n m p : Nat} (s : SSQ n m p) :
    Option (Matrix (Fin p) (Fin m) ℚ) :=
  (matInv s.A).map fun Ai => s.D - s.C * Ai * s.B

/-- Wrapper dcgain at the matrix level: convert the arguments to a
state-space system, then compute the gain from its matrices. -/
def dcgainQ {n m p : Nat} {α β γ : Type}
    (zpkC : α → SSQ n m p) (tfC : β → SSQ n m p) (sysC : γ → SSQ n m p)
    (args : DCArgs n m p α β γ) : Option (Matrix (Fin p) (Fin m) ℚ) :=
  dcgainGain (dcArgsToSS zpkC tfC sysC args)

end MatModel

namespace Matlab

/-- Every error raised by tf2ss is a ValueError or a TypeError. -/
theorem tf2ss_error_isVT {args : List PyVal} {e : Exc}
    (h : tf2ss args = .error e) : e.isVT = true := by
  rcases args with _ | ⟨a, _ | ⟨b, _ | ⟨c, rest⟩⟩⟩
  · simp only [tf2ss] at h
    rw [← Except.error.inj h]
    rfl
  · simp only [tf2ss] at h
    split at h
    · exact Except.noConfusion h
    · rw [← Except.error.inj h]
      rfl
  · simp only [tf2ss] at h
    exact Except.noConfusion h
  · simp only [tf2ss] at h
    rw [← Except.error.inj h]
    rfl

/-- Every error raised by ss2tf is a ValueError or a TypeError. -/
theorem ss2tf_error_isVT {args : List PyVal} {e : Exc}
    (h : ss2tf args = .error e) : e.isVT = true := by
  rcases args with _ | ⟨a, _ | ⟨b, _ | ⟨c, _ | ⟨d, _ | ⟨f, rest⟩⟩⟩⟩⟩
  · simp only [ss2tf] at h
    rw [← Except.error.inj h]
    rfl
  · simp only [ss2tf] at h
    split at h
    · exact Except.noConfusion h
    · rw [← Except.error.inj h]
      rfl
  · simp only [ss2tf] at h
    rw [← Except.error.inj h]
    rfl
  · simp only [ss2tf] at h
    rw [← Except.error.inj h]
    rfl
  · simp only [ss2tf] at h
    exact Except.noConfusion h
  · simp only [ss2tf] at h
    rw [← Except.error.inj h]
    rfl

/-- Every error raised by ss is a ValueError or a TypeError. -/
theorem ss_error_isVT {args : List PyVal} {e : Exc}
    (h : ss args = .error e) : e.isVT = true := by
  rcases args with _ | ⟨a, _ | ⟨b, _ | ⟨c, _ | ⟨d, _ | ⟨f, rest⟩⟩⟩⟩⟩
  · simp only [ss] at h
    rw [← Except.error.inj h]
    rfl
  · simp only [ss] at h
    split at h
    · exact Except.noConfusion h
    · split at h
      · exact tf2ss_error_isVT h
      · rw [← Except.error.inj h]
        rfl
  · simp only [ss] at h
    rw [← Except.error.inj h]
    rfl
  · simp only [ss] at h
    rw [← Except.error.inj h]
    rfl
  · simp only [ss] at h
    exact Except.noConfusion h
  · simp only [ss] at h
    rw [← Except.error.inj h]
    rfl

/-- Every error raised by tf is a ValueError or a TypeError. -/
theorem tf_error_isVT {args : List PyVal} {e : Exc}
    (h : tf args = .error e) : e.isVT = true := by
  rcases args with _ | ⟨a, _ | ⟨b, _ | ⟨c, rest⟩⟩⟩
  · simp only [tf] at h
    rw [← Except.error.inj h]
    rfl
  · simp only [tf] at h
    split at h
    · exact ss2tf_error_isVT h
    · split at h
      · exact Except.noConfusion h
      · rw [← Except.error.inj h]
        rfl
  · simp only [tf] at h
    exact Except.noConfusion h
  · simp only [tf] at h
    rw [← Except.error.inj h]
    rfl

/-- Every error raised by margin is a ValueError or a TypeError. -/
theorem margin_error_isVT {ρ : Type} {fpMargin : MarginArg → Fin 5 → ρ}
    {args : List PyVal} {e : Exc}
    (h : margin fpMargin args = .error e) : e.isVT = true := by
  rcases args with _ | ⟨a, _ | ⟨b, _ | ⟨c, _ | ⟨d, rest⟩⟩⟩⟩
  · simp only [margin] at h
    rw [← Except.error.inj h]
    rfl
  · simp only [margin] at h
    exact Except.noConfusion h
  · simp only [margin] at h
    rw [← Except.error.inj h]
    rfl
  · simp only [margin] at h
    exact Except.noConfusion h
  · simp only [margin] at h
    rw [← Except.error.inj h]
    rfl

/-- Every error raised by dcgain is a ValueError or a TypeError. -/
theorem dcgain_error_isVT
    {zpk2ss : PyVal → PyVal → PyVal → PyVal × PyVal × PyVal × PyVal}
    {args : List PyVal} {e : Exc}
    (h : dcgain zpk2ss args = .error e) : e.isVT = true := by
  rcases args with _ | ⟨a, _ | ⟨b, _ | ⟨c, _ | ⟨d, _ | ⟨f, rest⟩⟩⟩⟩⟩
  · simp only [dcgain] at h
    rw [← Except.error.inj h]
    rfl
  · simp only [dcgain] at h
    cases hss : ss [a] with
    | error e2 =>
        rw [hss] at h
        simp only [Except.map] at h
        rw [← Except.error.inj h]
        exact ss_error_isVT hss
    | ok r =>
        rw [hss] at h
        simp only [Except.map] at h
        exact Except.noConfusion h
  · simp only [dcgain, tf2ss, Except.map] at h
    exact Except.noConfusion h
  · simp only [dcgain, ss, Except.map] at h
    exact Except.noConfusion h
  · simp only [dcgain, ss, Except.map] at h
    exact Except.noConfusion h
  · simp only [dcgain] at h
    rw [← Except.error.inj h]
    rfl

/-- Every error raised by the argument loop of bode is a ControlArgument. -/
theorem bodeLoop_error_isCA (rest sl ps : List PyVal) (e : Exc) :
    bodeLoop rest sl ps = .error e → e.isCA = true := by
  induction rest, sl, ps using bodeLoop.induct with
  | case1 sl ps =>
      intro h
      simp only [bodeLoop] at h
      exact Except.noConfusion h
  | case2 a sl ps ha b rest2 hb ih =>
      intro h
      rw [bodeLoop.eq_def] at h
      simp only [ha, hb, if_true] at h
      exact ih h
  | case3 a sl ps ha b rest2 hb ih =>
      intro h
      rw [bodeLoop.eq_def] at h
      simp only [Bool.not_eq_true] at hb
      simp only [ha, hb, if_true, Bool.false_eq_true, if_false] at h
      exact ih h
  | case4 a sl ps ha ih =>
      intro h
      rw [bodeLoop.eq_def] at h
      simp only [ha, if_true] at h
      exact ih h
  | case5 a rest1 sl ps ha harr =>
      intro h
      rw [bodeLoop.eq_def] at h
      simp only [Bool.not_eq_true] at ha
      simp only [ha, harr, Bool.false_eq_true, if_false, if_true] at h
      exact Except.noConfusion h
  | case6 a rest1 sl ps ha harr =>
      intro h
      rw [bodeLoop.eq_def] at h
      simp only [Bool.not_eq_true] at ha harr
      simp only [ha, harr, Bool.false_eq_true, if_false] at h
      rw [← Except.error.inj h]
      rfl

/-- C2, amended: the validation of the wrappers ss, tf, ss2tf, tf2ss,
margin and dcgain raises only ValueError or TypeError; the argument
parsing of bode, however, raises ControlArgument, the validation exception
class imported from the exception module, for an unrecognized argument, an
argument after the frequency list, or a plotstyle count different from the
system count. -/
theorem validation_error_classes (args : List PyVal) {ρ κ : Type}
    (fpMargin : MarginArg → Fin 5 → ρ)
    (zpk2ss : PyVal → PyVal → PyVal → PyVal × PyVal × PyVal × PyVal)
    (kw : κ) (e : Exc) :
    ((ss args = .error e ∨ tf args = .error e ∨ ss2tf args = .error e ∨
        tf2ss args = .error e ∨ margin fpMargin args = .error e ∨
        dcgain zpk2ss args = .error e) → e.isVT = true) ∧
    (args ≠ [] → bode kw args = .error e → e.isCA = true) := by
  constructor
  · rintro (h | h | h | h | h | h)
    · exact ss_error_isVT h
    · exact tf_error_isVT h
    · exact ss2tf_error_isVT h
    · exact tf2ss_error_isVT h
    · exact margin_error_isVT h
    · exact dcgain_error_isVT h
  · intro hne h
    rcases args with _ | ⟨a, rest⟩
    · exact absurd rfl hne
    · simp only [bode] at h
      split at h
      · exact Except.noConfusion h
      · split at h
        · rename_i e2 heq
          rw [← Except.error.inj h]
          exact bodeLoop_error_isCA _ _ _ _ heq
        · split at h
          · rw [← Except.error.inj h]
            rfl
          · split at h
            · rw [← Except.error.inj h]
              rfl
            · exact Except.noConfusion h

/-- Counterexample to C2 as stated: bode rejects a single argument that is
neither a system, a string, nor a frequency list by raising
ControlArgument, which is neither a ValueError nor a TypeError. -/
theorem validation_error_classes_cex :
    bode () [PyVal.other 0]
      = .error (.controlArgument "unrecognized argument type") ∧
    Exc.isVT (.controlArgument "unrecognized argument type") = false :=
  ⟨rfl, rfl⟩

/-- Witness for the amended C2: the arity error of ss on zero arguments is
a ValueError, and the rejection of a single unrecognized argument by bode
is a ControlArgument. -/
theorem validation_error_classes_witness :
    Exc.isVT (.valueError (needs14Msg 0)) = true ∧
    Exc.isCA (.controlArgument "unrecognized argument type") = true := by
  have h1 := (validation_error_classes [] (fun _ _ => (0 : ℚ))
    (fun _ _ _ => (.other 0, .other 0, .other 0, .other 0)) ()
    (.valueError (needs14Msg 0))).1 (Or.inl rfl)
  have h2 := (validation_error_classes [.other 0] (fun _ _ => (0 : ℚ))
    (fun _ _ _ => (.other 0, .other 0, .other 0, .other 0)) ()
    (.controlArgument "unrecognized argument type")).2 (by simp) rfl
  exact ⟨h1, h2⟩

/-- C4: ss(A, B, C, D) returns exactly StateSpace(A, B, C, D); tf(num, den)
returns exactly TransferFunction(num, den); ss2tf(A, B, C, D) returns
convertToTransferFunction applied to StateSpace(A, B, C, D); and
tf2ss(num, den) returns convertToStateSpace applied to
TransferFunction(num, den): pure delegation, with no transformation of the
inputs or of the returned object. -/
theorem four_two_arg_pure_delegation (a b c d num den : PyVal) :
    ss [a, b, c, d] = .ok (.mkStateSpace a b c d) ∧
    tf [num, den] = .ok (.mkTransferFunction num den) ∧
    ss2tf [a, b, c, d] = .ok (.convertToTransferFunction (.mkStateSpace a b c d)) ∧
    tf2ss [num, den] = .ok (.convertToStateSpace (.mkTransferFunction num den)) :=
  ⟨rfl, rfl, rfl, rfl⟩

/-- C5: step, impulse, initial and lsim invoke their timeresp counterparts
with the transpose argument set to True and return the components of the
returned tuple unchanged: the pair T, yout for step, impulse and initial,
and the triple T, yout, xout for lsim. -/
theorem sim_wrappers_delegate_transposed {Sys Time U X Out XOut : Type}
    (StepResponse ImpulseResponse InitialResponse :
      Sys → Option Time → X → Nat → Nat → Bool → Time × Out)
    (ForcedResponse : Sys → Option Time → U → X → Bool → Time × Out × XOut)
    (sys : Sys) (T : Option Time) (X0 : X) (inp outp : Nat) (u : U) :
    step StepResponse sys T X0 inp outp = StepResponse sys T X0 inp outp true ∧
    impulse ImpulseResponse sys T X0 inp outp
      = ImpulseResponse sys T X0 inp outp true ∧
    initial InitialResponse sys T X0 inp outp
      = InitialResponse sys T X0 inp outp true ∧
    lsim ForcedResponse sys u T X0 = ForcedResponse sys T u X0 true :=
  ⟨rfl, rfl, rfl, rfl⟩

/-- C6: on both accepted argument counts, margin returns the 4-tuple built
from elements 0, 1, 3 and 4 of the 5-tuple returned by the delegate
freqplot.margin, discarding element 2. -/
theorem margin_selects_components {ρ : Type} (fpMargin : MarginArg → Fin 5 → ρ)
    (s m p w : PyVal) :
    margin fpMargin [s] =
      .ok (fpMargin (.sysArg s) 0, fpMargin (.sysArg s) 1,
           fpMargin (.sysArg s) 3, fpMargin (.sysArg s) 4) ∧
    margin fpMargin [m, p, w] =
      .ok (fpMargin (.magPhaseW m p w) 0, fpMargin (.magPhaseW m p w) 1,
           fpMargin (.magPhaseW m p w) 3, fpMargin (.magPhaseW m p w) 4) :=
  ⟨rfl, rfl⟩

/-- C10: when the first positional argument of bode has an iteration
attribute, bode forwards all positional and keyword arguments unchanged to
freqplot.bode, bypassing the MATLAB style argument loop and all of its
validation. -/
theorem bode_iterable_forwards_all {κ : Type} (kw : κ) (a : PyVal)
    (rest : List PyVal) (h : hasIter a = true) :
    bode kw (a :: rest) = .ok (.forwardAll (a :: rest) kw) := by
  simp [bode, h]

/-- Witness for C10: a list first argument makes bode forward everything,
even though the trailing argument would be rejected by the argument loop. -/
theorem bode_iterable_forwards_all_witness :
    hasIter (.arr 3) = true ∧
    bode () [PyVal.arr 3, PyVal.other 7] =
      .ok (.forwardAll [PyVal.arr 3, PyVal.other 7] ()) :=
  ⟨rfl, bode_iterable_forwards_all () (.arr 3) [.other 7] rfl⟩

/-- C3: on a single argument of the wrong class the conversion wrappers
raise a TypeError: ss and tf when the argument is neither a StateSpace nor
a TransferFunction, ss2tf when it is not a StateSpace, tf2ss when it is
not a TransferFunction. -/
theorem single_arg_wrong_class_typeError (v : PyVal) :
    (isSS v = false → isTF v = false →
      ss [v] = .error (.typeError (ssTypeMsg v)) ∧
      tf [v] = .error (.typeError (tfTypeMsg v))) ∧
    (isSS v = false → ss2tf [v] = .error (.typeError (ss2tfTypeMsg v))) ∧
    (isTF v = false → tf2ss [v] = .error (.typeError tf2ssTypeMsg)) := by
  refine ⟨fun h1 h2 => ⟨?_, ?_⟩, fun h1 => ?_, fun h2 => ?_⟩
  · simp [ss, h1, h2]
  · simp [tf, h1, h2]
  · simp [ss2tf, h1]
  · simp [tf2ss, h2]

/-- C1: a call whose number of positional arguments is not among the
accepted counts of the wrapper raises a ValueError without invoking any
delegated routine: ss and ss2tf accept 1 or 4 arguments, tf and tf2ss
accept 1 or 2, margin accepts 1 or 3, dcgain accepts 1, 2, 3 or 4.  The
error is returned directly, with no Res value constructed, so no delegate
call is recorded. -/
theorem arity_mismatch_valueError (args : List PyVal) {ρ : Type}
    (fpMargin : MarginArg → Fin 5 → ρ)
    (zpk2ss : PyVal → PyVal → PyVal → PyVal × PyVal × PyVal × PyVal) :
    (args.length ≠ 1 → args.length ≠ 4 →
      ss args = .error (.valueError (needs14Msg args.length)) ∧
      ss2tf args = .error (.valueError (needs14Msg args.length))) ∧
    (args.length ≠ 1 → args.length ≠ 2 →
      tf args = .error (.valueError (needs12Msg args.length)) ∧
      tf2ss args = .error (.valueError (needs12Msg args.length))) ∧
    (args.length ≠ 1 → args.length ≠ 3 →
      margin fpMargin args = .error (.valueError (marginMsg args.length))) ∧
    (args.length ≠ 1 → args.length ≠ 2 → args.length ≠ 3 → args.length ≠ 4 →
      dcgain zpk2ss args = .error (.valueError dcgainMsg)) := by
  rcases args with _ | ⟨a, _ | ⟨b, _ | ⟨c, _ | ⟨d, _ | ⟨f, rest⟩⟩⟩⟩⟩
  · exact ⟨fun _ _ => ⟨rfl, rfl⟩, fun _ _ => ⟨rfl, rfl⟩,
      fun _ _ => rfl, fun _ _ _ _ => rfl⟩
  · exact ⟨fun h _ => absurd rfl h, fun h _ => absurd rfl h,
      fun h _ => absurd rfl h, fun h _ _ _ => absurd rfl h⟩
  · exact ⟨fun _ _ => ⟨rfl, rfl⟩, fun _ h => absurd rfl h,
      fun _ _ => rfl, fun _ h _ _ => absurd rfl h⟩
  · exact ⟨fun _ _ => ⟨rfl, rfl⟩, fun _ _ => ⟨rfl, rfl⟩,
      fun _ h => absurd rfl h, fun _ _ h _ => absurd rfl h⟩
  · exact ⟨fun _ h => absurd rfl h, fun _ _ => ⟨rfl, rfl⟩,
      fun _ _ => rfl, fun _ _ _ h => absurd rfl h⟩
  · exact ⟨fun _ _ => ⟨rfl, rfl⟩, fun _ _ => ⟨rfl, rfl⟩,
      fun _ _ => rfl, fun _ _ _ _ => rfl⟩

/-- Witness for C1: five arguments are rejected by every wrapper with the
arity ValueError carrying the received count. -/
theorem arity_mismatch_valueError_witness :
    ss [.other 0, .other 1, .other 2, .other 3, .other 4]
      = .error (.valueError (needs14Msg 5)) ∧
    ss2tf [.other 0, .other 1, .other 2, .other 3, .other 4]
      = .error (.valueError (needs14Msg 5)) ∧
    tf [.other 0, .other 1, .other 2, .other 3, .other 4]
      = .error (.valueError (needs12Msg 5)) ∧
    tf2ss [.other 0, .other 1, .other 2, .other 3, .other 4]
      = .error (.valueError (needs12Msg 5)) ∧
    margin (fun _ _ => (0 : ℚ)) [.other 0, .other 1, .other 2, .other 3, .other 4]
      = .error (.valueError (marginMsg 5)) ∧
    dcgain (fun _ _ _ => (.other 0, .other 0, .other 0, .other 0))
        [.other 0, .other 1, .other 2, .other 3, .other 4]
      = .error (.valueError dcgainMsg) := by
  have h := arity_mismatch_valueError
    [.other 0, .other 1, .other 2, .other 3, .other 4]
    (fun _ _ => (0 : ℚ)) (fun _ _ _ => (.other 0, .other 0, .other 0, .other 0))
  exact ⟨(h.1 (by decide) (by decide)).1, (h.1 (by decide) (by decide)).2,
    (h.2.1 (by decide) (by decide)).1, (h.2.1 (by decide) (by decide)).2,
    h.2.2.1 (by decide) (by decide),
    h.2.2.2 (by decide) (by decide) (by decide) (by decide)⟩

/-- Witness for C3: a string is neither system class, and all four wrappers
raise the TypeError on it. -/
theorem single_arg_wrong_class_typeError_witness :
    isSS (.str "x") = false ∧ isTF (.str "x") = false ∧
    ss [.str "x"] = .error (.typeError (ssTypeMsg (.str "x"))) ∧
    tf [.str "x"] = .error (.typeError (tfTypeMsg (.str "x"))) ∧
    ss2tf [.str "x"] = .error (.typeError (ss2tfTypeMsg (.str "x"))) ∧
    tf2ss [.str "x"] = .error (.typeError tf2ssTypeMsg) := by
  have h := single_arg_wrong_class_typeError (.str "x")
  exact ⟨rfl, rfl, (h.1 rfl rfl).1, (h.1 rfl rfl).2, h.2.1 rfl, h.2.2 rfl⟩

/-- C7: the deterministic conversion wrappers are stateless.  The embedding
is a pure function of the call alone, faithful to the source, which reads
only module level names bound once at import time; consequently the result
of a call depends only on that call: the same call c, placed after any two
histories of wrapper calls and followed by any further calls, produces the
same result. -/
theorem wrappers_stateless (pre1 post1 pre2 post2 : List WCall) (c : WCall) :
    (runSeq (pre1 ++ c :: post1))[pre1.length]? =
      (runSeq (pre2 ++ c :: post2))[pre2.length]? := by
  have h : ∀ (pre post : List WCall),
      (runSeq (pre ++ c :: post))[pre.length]? = some (runCall c) := by
    intro pre post
    rw [runSeq, List.getElem?_map, List.getElem?_append_right (le_refl _)]
    simp
  rw [h pre1 post1, h pre2 post2]

end Matlab

namespace ObjModel

/-- Facts about one deep copy on the object store: the returned address is
fresh, the source object is unchanged, the copy holds the same contents,
and writing through the new address does not affect the source. -/
theorem deepcopy_frame (h : Heap) (a : Nat) (ha : a < h.length) :
    (deepcopy h a).2 = h.length ∧
    a ≠ h.length ∧
    (deepcopy h a).1[a]? = h[a]? ∧
    (deepcopy h a).1[h.length]? = some (h.getD a oDefault) ∧
    ∀ v, ((deepcopy h a).1.set h.length v)[a]? = h[a]? := by
  refine ⟨rfl, Nat.ne_of_lt ha, List.getElem?_append_left ha, ?_, ?_⟩
  · show (h ++ [h.getD a oDefault])[h.length]? = some (h.getD a oDefault)
    rw [List.getElem?_append_right (le_refl _)]
    simp
  · intro v
    show ((h ++ [h.getD a oDefault]).set h.length v)[a]? = h[a]?
    rw [List.getElem?_set_ne (Ne.symm (Nat.ne_of_lt ha))]
    exact List.getElem?_append_left ha

/-- C8: on a single StateSpace argument, ss returns a deep copy: a fresh
object distinct from the argument, with equal contents; the argument
object is unchanged by the call, and mutating the returned object does not
alter the argument.  The same holds for tf on a single TransferFunction
argument. -/
theorem ss_tf_single_arg_deepcopy (h : Heap) (a : Nat) (ha : a < h.length) :
    ((h.getD a oDefault).kind = .ssK →
      (ssHeap h a).2 = .addr h.length ∧
      a ≠ h.length ∧
      (ssHeap h a).1[a]? = h[a]? ∧
      (ssHeap h a).1[h.length]? = some (h.getD a oDefault) ∧
      ∀ v, ((ssHeap h a).1.set h.length v)[a]? = h[a]?) ∧
    ((h.getD a oDefault).kind = .tfK →
      (tfHeap h a).2 = .addr h.length ∧
      a ≠ h.length ∧
      (tfHeap h a).1[a]? = h[a]? ∧
      (tfHeap h a).1[h.length]? = some (h.getD a oDefault) ∧
      ∀ v, ((tfHeap h a).1.set h.length v)[a]? = h[a]?) := by
  obtain ⟨h1, h2, h3, h4, h5⟩ := deepcopy_frame h a ha
  constructor
  · intro hk
    simp only [ssHeap, hk]
    exact ⟨by rw [h1], h2, h3, h4, h5⟩
  · intro hk
    simp only [tfHeap, hk]
    exact ⟨by rw [h1], h2, h3, h4, h5⟩

/-- Witness for C8: on a two object heap holding a StateSpace at address 0
and a TransferFunction at address 1, ss copies the first to the fresh
address 2 and tf copies the second, and writing through the fresh address
leaves the originals readable unchanged. -/
theorem ss_tf_single_arg_deepcopy_witness :
    (ssHeap [⟨.ssK, 7⟩, ⟨.tfK, 8⟩] 0).2 = .addr 2 ∧
    ((ssHeap [⟨.ssK, 7⟩, ⟨.tfK, 8⟩] 0).1.set 2 ⟨.otherK, 9⟩)[0]?
      = some ⟨.ssK, 7⟩ ∧
    (tfHeap [⟨.ssK, 7⟩, ⟨.tfK, 8⟩] 1).2 = .addr 2 ∧
    ((tfHeap [⟨.ssK, 7⟩, ⟨.tfK, 8⟩] 1).1.set 2 ⟨.otherK, 9⟩)[1]?
      = some ⟨.tfK, 8⟩ := by
  have hs := (ss_tf_single_arg_deepcopy [⟨.ssK, 7⟩, ⟨.tfK, 8⟩] 0 (by decide)).1 rfl
  have ht := (ss_tf_single_arg_deepcopy [⟨.ssK, 7⟩, ⟨.tfK, 8⟩] 1 (by decide)).2 rfl
  exact ⟨hs.1, (hs.2.2.2.2 ⟨.otherK, 9⟩).trans rfl, ht.1,
    (ht.2.2.2.2 ⟨.otherK, 9⟩).trans rfl⟩

end ObjModel

namespace MatModel

/-- C9: every accepted argument form of dcgain is first converted to a
state-space system sys, and when sys.A is invertible the returned gain is
the matrix sys.D - sys.C * sys.A⁻¹ * sys.B. -/
theorem dcgain_converts_then_gain {n m p : Nat} {α β γ : Type}
    (zpkC : α → SSQ n m p) (tfC : β → SSQ n m p) (sysC : γ → SSQ n m p)
    (args : DCArgs n m p α β γ)
    (h : IsUnit (dcArgsToSS zpkC tfC sysC args).A.det) :
    dcgainQ zpkC tfC sysC args =
      some ((dcArgsToSS zpkC tfC sysC args).D -
        (dcArgsToSS zpkC tfC sysC args).C *
          (dcArgsToSS zpkC tfC sysC args).A⁻¹ *
        (dcArgsToSS zpkC tfC sysC args).B) := by
  have hinv : (dcArgsToSS zpkC tfC sysC args).A⁻¹ =
      (dcArgsToSS zpkC tfC sysC args).A.det⁻¹ •
        (dcArgsToSS zpkC tfC sysC args).A.adjugate := by
    rw [Matrix.inv_def, Ring.inverse_eq_inv']
  unfold dcgainQ dcgainGain matInv
  rw [if_neg h.ne_zero, Option.map_some', hinv]

/-- Witness for C9: a one state, one input, one output system with A = (2),
B = (1), C = (3), D = (5); A is invertible and dcgain returns
D - C * A⁻¹ * B. -/
theorem dcgain_converts_then_gain_witness :
    IsUnit (Matrix.det !![(2 : ℚ)]) ∧
    dcgainQ (fun _ : Unit => ⟨!![(1 : ℚ)], !![(0 : ℚ)], !![(0 : ℚ)], !![(0 : ℚ)]⟩)
      (fun _ : Unit => ⟨!![(1 : ℚ)], !![(0 : ℚ)], !![(0 : ℚ)], !![(0 : ℚ)]⟩)
      (fun _ : Unit => ⟨!![(1 : ℚ)], !![(0 : ℚ)], !![(0 : ℚ)], !![(0 : ℚ)]⟩)
      (.mats !![(2 : ℚ)] !![(1 : ℚ)] !![(3 : ℚ)] !![(5 : ℚ)]) =
      some (!![(5 : ℚ)] - !![(3 : ℚ)] * (!![(2 : ℚ)])⁻¹ * !![(1 : ℚ)]) := by
  have h2 : Matrix.det !![(2 : ℚ)] = 2 := by
    rw [Matrix.det_fin_one]
    rfl
  have hu : IsUnit (Matrix.det !![(2 : ℚ)]) := by
    rw [h2]
    exact isUnit_iff_ne_zero.mpr (by norm_num)
  exact ⟨hu, dcgain_converts_then_gain _ _ _ _ hu⟩

end MatModel
